import Mathlib

set_option maxRecDepth 10000

namespace CaladanTx

/-!
Shallow embedding of the transmit path of the caladan I/O kernel,
src/iokernel/tx.c.  Machine integers are modelled as Nat with explicit
reduction modulo a power of two at the points where the C code can wrap.
-/

/-- Numeric base of 16-bit C arithmetic (2 to the 16). -/
def U16 : Nat := 65536

/-- Numeric base of 32-bit C arithmetic (2 to the 32). -/
def U32 : Nat := 4294967296

/-- Numeric base of 64-bit C arithmetic (2 to the 64). -/
def U64 : Nat := 18446744073709551616

/-- Constant MTU_SIZE from tx.c line 23. -/
def MTU_SIZE : Nat := 1500

/-- Constant UDP_OFFSET from tx.c line 22 (byte offset of the UDP header
inside the L2 frame; the UDP length field sits 4 bytes further). -/
def UDP_OFFSET : Nat := 34

/-- Modelled from the spec: sizeof(struct tx_net_hdr).  The struct is
declared in a shared-memory header that is not among the given sources;
spec section 6 gives its layout as completion_data (8 bytes),
offload_flags (4 bytes), len (4 bytes), followed immediately by the L2
frame, hence 16 bytes. -/
def tx_net_hdr_size : Nat := 16

/-- Modelled from the spec: the burst cap IOKERNEL_TX_BURST_SIZE, a
configuration constant declared in a header not among the given sources
(spec section 6 calls it driver-dependent).  The concrete value is
immaterial to the theorems below. -/
def IOKERNEL_TX_BURST_SIZE : Nat := 64

/-! ## Completion router state (tx.c lines 105-194)

The fields of struct proc used by the completion path: the kill flag, the
round-robin thread cursor next_thread_rr, and the bounded overflow queue.
The C overflow queue is an array overflow_queue[0 .. nr_overflows-1] of
capacity max_overflows; it is modelled as a list whose length is
nr_overflows, where list index i is array index i. -/

structure Proc where
  kill : Bool
  nextThreadRR : Nat
  overflowQueue : List Nat
  maxOverflows : Nat
  deriving Repr, DecidableEq

/-- The private trailer of an egress mbuf, struct tx_pktmbuf_priv
(tx.c lines 34-41).  The process and thread pointers are abstracted to
the one bit the control flow of tx_send_completion reads from them:
whether the process pointer is NULL.  The thread active flag is passed
separately at call time. -/
structure TxPktmbufPriv where
  pIsNull : Bool
  completionData : Nat
  deriving Repr, DecidableEq

/-- tx_pktmbuf_priv_init (tx.c lines 392-398): memset of the private area
to zero, i.e. a NULL process pointer and a zero completion token. -/
def tx_pktmbuf_priv_init : TxPktmbufPriv := ⟨true, 0⟩

/-- Observable outcome of one tx_send_completion call: the returned bool,
the number of proc_put calls performed, the token enqueued onto a thread
ingress ring (via lrpc_send or rx_send_to_runtime) if any, the token
appended to the overflow queue if any, and the updated process state. -/
structure SendCompletionResult where
  ret : Bool
  puts : Nat
  ringEnq : Option Nat
  ovfEnq : Option Nat
  proc : Proc
  deriving Repr, DecidableEq

/-- The overflow spill tail of tx_send_completion (tx.c lines 146-159):
if nr_overflows equals max_overflows, warn and return false with no
proc_put; otherwise append the token at index nr_overflows, increment
nr_overflows, fall through to the success label and drop one reference. -/
def overflow_spill (p : Proc) (tok : Nat) : SendCompletionResult :=
  if p.overflowQueue.length = p.maxOverflows then ⟨false, 0, none, none, p⟩
  else ⟨true, 1, none, some tok, { p with overflowQueue := p.overflowQueue ++ [tok] }⟩

/-- tx_send_completion (tx.c lines 105-160).  The outcomes of the two
ring sends are environment inputs: lrpcOk is the result lrpc_send to the
rxq of the recorded thread would return, rxOk the result
rx_send_to_runtime would return; active is the active flag of the
recorded thread.  Note that rx_send_to_runtime receives
p.next_thread_rr++ as an argument, so the cursor advances on that branch
whether or not the send succeeds, while the lrpc_send branch leaves it
unchanged. -/
def tx_send_completion (priv : TxPktmbufPriv) (p : Proc)
    (active lrpcOk rxOk : Bool) : SendCompletionResult :=
  if priv.pIsNull then ⟨true, 0, none, none, p⟩
  else if p.kill then ⟨true, 1, none, none, p⟩
  else if priv.completionData = 0 then ⟨true, 1, none, none, p⟩
  else if active then
    if lrpcOk then ⟨true, 1, some priv.completionData, none, p⟩
    else overflow_spill p priv.completionData
  else
    let p1 : Proc := { p with nextThreadRR := p.nextThreadRR + 1 }
    if rxOk then ⟨true, 1, some priv.completionData, none, p1⟩
    else overflow_spill p1 priv.completionData

/-- drain_overflow_queue (tx.c lines 162-174).  While the queue is
nonempty and fewer than n tokens have been moved, pop the token at index
nr_overflows - 1 (the most recently appended one) and hand it to
rx_send_to_runtime; on a send failure restore nr_overflows and stop.
The ring acceptance is modelled by acc, the number of sends the target
rings will accept before refusing.  Returns the delivered tokens in
delivery order together with the remaining queue. -/
def drain_overflow_queue : List Nat → Nat → Nat → List Nat × List Nat
  | q, 0, _ => ([], q)
  | q, n + 1, acc =>
    if hq : q = [] then ([], q)
    else
      match acc with
      | 0 => ([], q)
      | a + 1 =>
        let step := drain_overflow_queue q.dropLast n a
        (q.getLast hq :: step.1, step.2)

/-! ## Segmenter (tx.c lines 289-346, the UDP GSO block of tx_burst)

The per-descriptor segmentation is modelled at the level of the emitted
transmit descriptors: their len field, completion token and, where the
code rewrites them, the stored UDP length and IP total-length fields.
The byte-level memmove and memcpy traffic is not modelled; executions in
which the computed arithmetic makes those byte moves undefined (a zero
segment count, whose loop bound wraps around, or a payload shorter than
1458 times segs - 1, whose memmove size underflows) are modelled as
none. -/

/-- A dequeued egress descriptor as the segmenter sees it: the len field
of its tx_net_hdr, its completion token, and the 16-bit value stored in
the UDP length field at byte offset UDP_OFFSET + 4 of the frame (what
ntoh16 of udphdr to len yields, whatever protocol the frame truly is). -/
structure TxDesc where
  len : Nat
  completionData : Nat
  udpLenField : Nat
  deriving Repr, DecidableEq

/-- One emitted transmit descriptor: length, completion token, and the
values the code wrote into the UDP length field and the IP total-length
field (none when the code leaves the frame untouched, as on the
pass-through path). -/
structure Seg where
  len : Nat
  completionData : Nat
  udpLenField : Option Nat
  ipLenField : Option Nat
  deriving Repr, DecidableEq

/-- hton16: the stored field is 16 bits wide, so the value is reduced
modulo 2 to the 16 (byte order is representation only and not modelled). -/
def hton16 (x : Nat) : Nat := x % U16

/-- tx.c line 304: len = ntoh16(udphdr to len) - sizeof(struct udp_hdr).
The 16-bit field value minus 8, computed in C unsigned arithmetic and
stored in a 32-bit unsigned variable, hence the wrap when the field is
below 8.  (sizeof(struct udp_hdr) = 8, the standard UDP header.) -/
def udpPayloadLen (u : Nat) : Nat := (u % U16 + U32 - 8) % U32

/-- tx.c line 307: segs = (hdrs[i] to len + sizeof(struct tx_net_hdr)
- len) / 60.  The sum is computed in 64-bit unsigned arithmetic (sizeof
has type size_t) and the quotient is stored in a 32-bit unsigned
variable. -/
def segsOfAux (sz total payload : Nat) : Nat :=
  ((total + sz + U64 - payload) % U64 / 60) % U32

/-- The segment count of a descriptor under the modelled header size. -/
def segsOf (d : TxDesc) : Nat :=
  segsOfAux tx_net_hdr_size d.len (udpPayloadLen d.udpLenField)

/-- A non-final segment (tx.c lines 326-333): len becomes MTU_SIZE, the
completion token is zeroed, the UDP length field becomes len - 34 and the
IP total-length field len - 14. -/
def midSeg : Seg :=
  ⟨MTU_SIZE, 0, some (hton16 (MTU_SIZE - 34)), some (hton16 (MTU_SIZE - 14))⟩

/-- The final segment (tx.c lines 339-342): len becomes payload -
1458 * (segs - 1) + 42 in 32-bit unsigned arithmetic, the completion
token is left as copied from the original descriptor, and the UDP and IP
length fields are rewritten from the new len. -/
def lastSegOf (payload segs tok : Nat) : Seg :=
  let l := (payload + 42 + U32 - 1458 * (segs - 1) % U32) % U32
  ⟨l, tok, some (hton16 (l + U32 - 34)), some (hton16 (l + U32 - 14))⟩

/-- The segmenter applied to one descriptor (the body of the loop at
tx.c lines 294-346).  A descriptor whose len is at most MTU_SIZE is
emitted unchanged (lines 296-300).  Otherwise the code recovers the UDP
payload length, computes segs, moves the payload chunks apart, and emits
segs - 1 copies of midSeg followed by the final segment.  segs = 0 makes
the C loop bound segs - 1 wrap around and the byte moves run wild, and a
payload shorter than 1458 * (segs - 1) makes the first memmove size
underflow; both are modelled as none. -/
def segmentOneAux (sz : Nat) (d : TxDesc) : Option (List Seg) :=
  if d.len ≤ MTU_SIZE then some [⟨d.len, d.completionData, none, none⟩]
  else if segsOfAux sz d.len (udpPayloadLen d.udpLenField) = 0 then none
  else if udpPayloadLen d.udpLenField <
      1458 * (segsOfAux sz d.len (udpPayloadLen d.udpLenField) - 1) then none
  else some (List.replicate (segsOfAux sz d.len (udpPayloadLen d.udpLenField) - 1) midSeg ++
    [lastSegOf (udpPayloadLen d.udpLenField)
      (segsOfAux sz d.len (udpPayloadLen d.udpLenField)) d.completionData])

/-- The segmenter with the modelled tx_net_hdr size. -/
def segmentOne (d : TxDesc) : Option (List Seg) := segmentOneAux tx_net_hdr_size d

/-! ## Egress polling, dequeue validation and back-pressure
(tx.c lines 196-220 and 246-386) -/

/-- The command tag of a dequeued egress ring slot.  The only tag the
transmit path accepts is TXPKT_NET_XMIT; every other value is collapsed
into the constructor other. -/
inductive TxCmd
  | netXmit
  | other
  deriving Repr, DecidableEq

/-- One dequeued egress ring slot: command tag and shared-memory offset. -/
structure EgressSlot where
  cmd : TxCmd
  offset : Nat
  deriving Repr, DecidableEq

/-- A shared-memory region of a process: base address and length. -/
structure Region where
  rbase : Nat
  rlen : Nat
  deriving Repr, DecidableEq

/-- Modelled from the spec: shmptr_to_ptr, declared outside the given
sources.  Spec section 4.1: the offset is translated to a host pointer by
checking it lies within the region of P and adding the base of P; a
failed translation yields no pointer. -/
def shmptr_to_ptr (r : Region) (off size : Nat) : Option Nat :=
  if off + size ≤ r.rlen then some (r.rbase + off) else none

/-- The two assertion failures tx_drain_queue can hit.  BUG_ON is the
base-library assertion macro: when its condition holds it panics the
whole I/O kernel process.  The code at tx.c lines 210-216 carries TODO
comments asking whether the offending process should be killed instead;
no kill flag is touched. -/
inductive IokPanic
  | badTag
  | badShmPtr
  deriving Repr, DecidableEq

/-- tx_drain_queue (tx.c lines 196-220): dequeue up to n slots from the
egress ring of one thread (the ring contents are the list, lrpc_recv
failing once the list is exhausted), assert the tag is TXPKT_NET_XMIT,
translate the offset, assert the translation succeeded, and collect the
header pointers.  Either assertion failure aborts the whole call (and,
in the real program, the whole I/O kernel). -/
def tx_drain_queue (r : Region) : Nat → List EgressSlot → Except IokPanic (List Nat)
  | 0, _ => .ok []
  | _ + 1, [] => .ok []
  | n + 1, s :: rest =>
    if s.cmd ≠ TxCmd.netXmit then .error .badTag
    else
      match shmptr_to_ptr r s.offset tx_net_hdr_size with
      | none => .error .badShmPtr
      | some ptr =>
        match tx_drain_queue r n rest with
        | .error e => .error e
        | .ok ps => .ok (ptr :: ps)

/-- Result of the polling loop of tx_burst (tx.c lines 258-269): the
descriptors pulled this call in pull order, the drained per-thread
queues, and whether the loop exited through goto full. -/
structure PollResult where
  pulled : List Nat
  queues : List (List Nat)
  filled : Bool
  deriving Repr, DecidableEq

/-- The polling loop of tx_burst (tx.c lines 258-269), with
tx_drain_queue abstracted to pulling up to the remaining burst budget
from the per-thread queue (the protocol-violation panics are modelled
separately above).  k counts the remaining threads to visit, i the loop
index, nPkts the running static packet count.  The C budget expression
IOKERNEL_TX_BURST_SIZE - n_pkts is unsigned and passed to an int
parameter, so a count already at or above the burst size yields a
non-positive budget and an empty pull, after which the n_pkts check
still exits through goto full. -/
def pollLoop : Nat → List (List Nat) → Nat → Nat → Nat → PollResult
  | 0, qs, _, _, _ => ⟨[], qs, false⟩
  | k + 1, qs, pos, i, nPkts =>
    let idx := (pos + i) % qs.length
    let q := qs.getD idx []
    let cap := if IOKERNEL_TX_BURST_SIZE ≤ nPkts then 0
               else IOKERNEL_TX_BURST_SIZE - nPkts
    let r := min cap q.length
    let qs1 := qs.set idx (q.drop r)
    if IOKERNEL_TX_BURST_SIZE ≤ nPkts + r then ⟨q.take r, qs1, true⟩
    else
      let rest := pollLoop k qs1 pos (i + 1) (nPkts + r)
      ⟨q.take r ++ rest.pulled, rest.queues, rest.filled⟩

/-- The static state tx_burst keeps across calls (tx.c lines 251 and
287): the fairness cursor pos, the carried packet count n_pkts (equal to
n_bufs between calls on the paths modelled here), the carried entries of
the static bufs array, and the per-thread egress queues. -/
structure TxState where
  pos : Nat
  nPkts : Nat
  bufs : List Nat
  queues : List (List Nat)
  deriving Repr, DecidableEq

/-- Observable outcome of one tx_burst call: the returned bool, the new
static state, the descriptors pulled this call, and the buffer list
offered to rte_eth_tx_burst. -/
structure BurstResult where
  ret : Bool
  state : TxState
  pulled : List Nat
  offered : List Nat
  deriving Repr, DecidableEq

/-- tx_burst (tx.c lines 246-386) at the granularity of the claims on
polling, cursor advance and back-pressure.  The descriptors are taken as
already validated and at most MTU_SIZE long, so the GSO block emits them
unchanged one for one (the segmenter itself is modelled separately by
segmentOne); the mempool bulk get is taken as succeeding.  After the
polling loop: if the static count is zero return false (tx.c line 271);
advance pos only when the loop did not exit through goto full (line
274); allocate buffers for the new descriptors behind the carried ones;
offer bufs[0 .. n_pkts) to the driver; the driver accepts the first
accept of them, and the unaccepted tail is shifted to the front of bufs
with n_pkts and n_bufs set to its length (lines 375-384). -/
def tx_burst (s : TxState) (accept : Nat) : BurstResult :=
  let pr := pollLoop s.queues.length s.queues s.pos 0 s.nPkts
  if s.nPkts + pr.pulled.length = 0 then
    ⟨false, { s with queues := pr.queues }, [], []⟩
  else
    let pos1 := if pr.filled then s.pos else s.pos + 1
    let offered := s.bufs ++ pr.pulled
    let leftover := offered.drop accept
    ⟨true, ⟨pos1, leftover.length, leftover, pr.queues⟩, pr.pulled, offered⟩

/-! ## Helper lemmas -/

/-- When the stored UDP length field is a sane 16-bit value of at least
8, the recovered payload length is the field minus the UDP header. -/
theorem udpPayloadLen_eq {u : Nat} (h8 : 8 ≤ u) (h16 : u < U16) :
    udpPayloadLen u = u - 8 := by
  unfold udpPayloadLen U16 U32 at *
  omega

/-- countP of a replicated element the predicate rejects is zero. -/
theorem countP_replicate_false {α : Type} (p : α → Bool) (x : α) (n : Nat)
    (h : p x = false) : (List.replicate n x).countP p = 0 := by
  induction n with
  | zero => simp
  | succ n ih => simp [List.replicate_succ, List.countP_cons, h, ih]

/-! ## Claim theorems -/

/-- Claim C10 (confirmed).  A buffer whose private trailer is in the
state established by tx_pktmbuf_priv_init (memset to zero, hence a NULL
process pointer) makes tx_send_completion return true immediately: no
reference count change, no ring enqueue, no overflow append, process
state untouched. -/
theorem c10_null_proc_noop (p : Proc) (active lrpcOk rxOk : Bool) :
    tx_send_completion tx_pktmbuf_priv_init p active lrpcOk rxOk =
      ⟨true, 0, none, none, p⟩ := rfl

/-- Claim C2, counterexample.  A released buffer with a non-null process
pointer, a live process, a nonzero token, an active thread whose ring
send fails, and a full overflow queue: tx_send_completion performs zero
proc_put calls and returns false, so a reference on P is NOT dropped on
the overflow-queue-full path (tx.c lines 146-149 return before the
success label). -/
theorem c2_counterexample :
    (tx_send_completion ⟨false, 5⟩ ⟨false, 0, [8, 9], 2⟩ true false false).puts = 0 ∧
    (tx_send_completion ⟨false, 5⟩ ⟨false, 0, [8, 9], 2⟩ true false false).ret = false := by
  decide

/-- Claim C2 as amended.  For every released buffer whose trailer holds a
non-null process pointer, exactly one reference on P is dropped and true
is returned on every path (suppressed token, killed process, successful
ring send, spill into the overflow queue) EXCEPT the path where the ring
send fails and the overflow queue is already full: there no reference is
dropped and the call returns false. -/
theorem c2_amended (p : Proc) (tok : Nat) (active lrpcOk rxOk : Bool) :
    ((tx_send_completion ⟨false, tok⟩ p active lrpcOk rxOk).puts = 1 ∧
     (tx_send_completion ⟨false, tok⟩ p active lrpcOk rxOk).ret = true) ∨
    ((tx_send_completion ⟨false, tok⟩ p active lrpcOk rxOk).puts = 0 ∧
     (tx_send_completion ⟨false, tok⟩ p active lrpcOk rxOk).ret = false ∧
     p.kill = false ∧ tok ≠ 0 ∧
     (if active then lrpcOk else rxOk) = false ∧
     p.overflowQueue.length = p.maxOverflows) := by
  by_cases hk : p.kill <;> by_cases ht : tok = 0 <;>
    cases active <;> cases lrpcOk <;> cases rxOk <;>
    by_cases hov : p.overflowQueue.length = p.maxOverflows <;>
    simp_all [tx_send_completion, overflow_spill]

/-- Claim C9, counterexample.  A nonzero token for a live process whose
thread is inactive, whose round-robin ring send fails and whose overflow
queue is full: nothing is enqueued anywhere (no ring record, no overflow
append, queue unchanged) and the call fails, although the token is
nonzero and the process is not killed. -/
theorem c9_counterexample :
    (tx_send_completion ⟨false, 7⟩ ⟨false, 1, [4, 5, 6], 3⟩ false false false).ringEnq = none ∧
    (tx_send_completion ⟨false, 7⟩ ⟨false, 1, [4, 5, 6], 3⟩ false false false).ovfEnq = none ∧
    (tx_send_completion ⟨false, 7⟩ ⟨false, 1, [4, 5, 6], 3⟩ false false false).ret = false := by
  decide

/-- Claim C9 as amended.  With a non-null process pointer,
tx_send_completion enqueues a completion record (onto a ring or the
overflow queue) if and only if the token is nonzero, P is not killed,
and additionally either the attempted ring send succeeds or the overflow
queue is not full; when the token is zero or P is killed the call
returns true with nothing enqueued, as claimed. -/
theorem c9_amended (p : Proc) (tok : Nat) (active lrpcOk rxOk : Bool) :
    (((tx_send_completion ⟨false, tok⟩ p active lrpcOk rxOk).ringEnq ≠ none ∨
      (tx_send_completion ⟨false, tok⟩ p active lrpcOk rxOk).ovfEnq ≠ none) ↔
     (tok ≠ 0 ∧ p.kill = false ∧
      ((if active then lrpcOk else rxOk) = true ∨
       p.overflowQueue.length ≠ p.maxOverflows))) ∧
    ((tok = 0 ∨ p.kill = true) →
     (tx_send_completion ⟨false, tok⟩ p active lrpcOk rxOk).ret = true ∧
     (tx_send_completion ⟨false, tok⟩ p active lrpcOk rxOk).ringEnq = none ∧
     (tx_send_completion ⟨false, tok⟩ p active lrpcOk rxOk).ovfEnq = none) := by
  by_cases hk : p.kill <;> by_cases ht : tok = 0 <;>
    cases active <;> cases lrpcOk <;> cases rxOk <;>
    by_cases hov : p.overflowQueue.length = p.maxOverflows <;>
    simp_all [tx_send_completion, overflow_spill]

/-- Claim C9 witness: the amended statement instantiated at a live
process with a free overflow slot and a failing inactive-thread send. -/
theorem c9_witness :
    (((tx_send_completion ⟨false, 3⟩ ⟨false, 0, [], 4⟩ false false false).ringEnq ≠ none ∨
      (tx_send_completion ⟨false, 3⟩ ⟨false, 0, [], 4⟩ false false false).ovfEnq ≠ none) ↔
     ((3 : Nat) ≠ 0 ∧ (⟨false, 0, [], 4⟩ : Proc).kill = false ∧
      ((if false then false else false) = true ∨
       (⟨false, 0, [], 4⟩ : Proc).overflowQueue.length ≠
         (⟨false, 0, [], 4⟩ : Proc).maxOverflows))) ∧
    (((3 : Nat) = 0 ∨ (⟨false, 0, [], 4⟩ : Proc).kill = true) →
     (tx_send_completion ⟨false, 3⟩ ⟨false, 0, [], 4⟩ false false false).ret = true ∧
     (tx_send_completion ⟨false, 3⟩ ⟨false, 0, [], 4⟩ false false false).ringEnq = none ∧
     (tx_send_completion ⟨false, 3⟩ ⟨false, 0, [], 4⟩ false false false).ovfEnq = none) :=
  c9_amended ⟨false, 0, [], 4⟩ 3 false false false

/-- Claim C1, counterexample.  Two completion tokens 1 and 2 are spilled
into the overflow queue of one process in that order (active thread, the
ring send failing each time); a subsequent drain with a willing ring
delivers them as [2, 1], the reverse of the append order, so the claimed
FIFO delivery fails on the very first pair of tokens. -/
theorem c1_counterexample :
    (drain_overflow_queue
      (tx_send_completion ⟨false, 2⟩
        (tx_send_completion ⟨false, 1⟩ ⟨false, 0, [], 4⟩ true false false).proc
        true false false).proc.overflowQueue 2 2).1 = [2, 1] ∧
    ([2, 1] : List Nat) ≠ [1, 2] := by
  decide

/-- Claim C1 as amended.  The overflow queue behaves as a stack, not a
FIFO: tx_send_completion appends at index nr_overflows and
drain_overflow_queue pops at index nr_overflows - 1, so a drain bounded
by the batch budget n and by acc accepted ring sends delivers the
min n (min acc length) most recently appended tokens, most recent first
(a prefix of the reversed queue), leaving the oldest tokens in place. -/
theorem c1_amended_lifo (n : Nat) (q : List Nat) (acc : Nat) :
    drain_overflow_queue q n acc =
      (q.reverse.take (min n (min acc q.length)),
       q.take (q.length - min n (min acc q.length))) := by
  induction n generalizing q acc with
  | zero => simp [drain_overflow_queue]
  | succ n ih =>
    rcases eq_or_ne q [] with hq | hq
    · subst hq; simp [drain_overflow_queue]
    · cases acc with
      | zero =>
        simp [drain_overflow_queue, hq, List.take_length]
      | succ a =>
        have hL : 1 ≤ q.length := List.length_pos.mpr hq
        have hlen : q.dropLast.length = q.length - 1 := List.length_dropLast q
        have hrev : q.reverse = q.getLast hq :: q.dropLast.reverse := by
          conv_lhs => rw [← List.dropLast_append_getLast hq]
          simp
        have hmin : min (n + 1) (min (a + 1) q.length) =
            min n (min a (q.length - 1)) + 1 := by omega
        have hsub : q.length - (min n (min a (q.length - 1)) + 1) =
            q.length - 1 - min n (min a (q.length - 1)) := by omega
        have htk : ∀ m, m ≤ q.length - 1 → q.take m = q.dropLast.take m := by
          intro m hm
          rw [List.dropLast_eq_take, List.take_take]
          congr 1
          omega
        simp only [drain_overflow_queue, dif_neg hq, ih, hmin, hsub, hrev, hlen,
          List.take_succ_cons]
        rw [htk (q.length - 1 - min n (min a (q.length - 1))) (by omega)]

/-- Claim C3, counterexample.  The instance named by the claim: an
oversized UDP descriptor with total length 42 + 4000 = 4042 and UDP
length field 4008 (payload 4000).  The code computes
segs = (4042 + sizeof(struct tx_net_hdr) - 4000) / 60 = 0, not
ceil(4000 / 1458) = 3: the segment loop bound segs - 1 wraps around and
the execution is undefined (modelled none), and no 3-segment output
1500/1500/1126 exists. -/
theorem c3_counterexample :
    segmentOne ⟨4042, 1, 4008⟩ = none ∧ segsOf ⟨4042, 1, 4008⟩ = 0 := by
  decide

/-- Supporting robustness fact (not tied to a claim): whatever small
size sizeof(struct tx_net_hdr) really has, the spec example descriptor
never produces 3 segments, because segs depends on total length minus
payload, which is 42 here. -/
theorem segsOfAux_never_three_at_spec_example :
    ∀ sz : Nat, sz ≤ 100 →
      (segmentOneAux sz ⟨4042, 1, 4008⟩).map List.length ≠ some 3 := by
  decide

/-- Claim C3 as amended.  The segment count is the code formula
segs = (total_len + sizeof(struct tx_net_hdr) - payload_len) / 60, not
ceil(payload_len / (MTU - 42)); the two agree only when the descriptor
len field budgets 60 bytes of header room per segment.  With that segs,
whenever segs is at least 1 and the payload covers the full segments,
the emitted group is exactly as the claim describes: segs - 1 segments
of length MTU_SIZE followed by one of length 42 plus the residual
payload, every rewritten UDP length field equal to the segment length
minus 34 and every rewritten IP total-length field equal to the segment
length minus 14. -/
theorem c3_amended (total tok u s : Nat)
    (hs : s = segsOfAux tx_net_hdr_size total (u - 8))
    (h8 : 8 ≤ u) (h16 : u < 65536)
    (hbig : MTU_SIZE < total)
    (hpos : 1 ≤ s)
    (hres : 1458 * (s - 1) ≤ u - 8)
    (hwire : u - 8 - 1458 * (s - 1) + 42 ≤ 65535) :
    segmentOne ⟨total, tok, u⟩ =
      some (List.replicate (s - 1)
              ⟨MTU_SIZE, 0, some (MTU_SIZE - 34), some (MTU_SIZE - 14)⟩ ++
            [⟨u - 8 - 1458 * (s - 1) + 42, tok,
              some (u - 8 - 1458 * (s - 1) + 42 - 34),
              some (u - 8 - 1458 * (s - 1) + 42 - 14)⟩]) := by
  have hU : u < U16 := by unfold U16; omega
  have hp : udpPayloadLen u = u - 8 := udpPayloadLen_eq h8 hU
  have hmid : midSeg = (⟨MTU_SIZE, 0, some (MTU_SIZE - 34), some (MTU_SIZE - 14)⟩ : Seg) := by
    decide
  have hlast : lastSegOf (u - 8) s tok =
      (⟨u - 8 - 1458 * (s - 1) + 42, tok,
        some (u - 8 - 1458 * (s - 1) + 42 - 34),
        some (u - 8 - 1458 * (s - 1) + 42 - 14)⟩ : Seg) := by
    simp only [lastSegOf, hton16, U32, U16, Seg.mk.injEq, Option.some.injEq]
    refine ⟨?_, trivial, ?_, ?_⟩ <;> omega
  simp only [segmentOne, segmentOneAux, hp]
  rw [if_neg (Nat.not_le.mpr hbig), ← hs, if_neg (by omega),
    if_neg (Nat.not_lt.mpr hres), hmid, hlast]

/-- Claim C3 witness: the amended statement at total length 4180, token
7, UDP length field 4008 (payload 4000), where the code formula gives
segs = (4180 + 16 - 4000) / 60 = 3 and the emitted group is 1500, 1500,
1126 with UDP length fields 1466, 1466, 1092. -/
theorem c3_witness :
    segmentOne ⟨4180, 7, 4008⟩ =
      some (List.replicate (3 - 1)
              ⟨MTU_SIZE, 0, some (MTU_SIZE - 34), some (MTU_SIZE - 14)⟩ ++
            [⟨4008 - 8 - 1458 * (3 - 1) + 42, 7,
              some (4008 - 8 - 1458 * (3 - 1) + 42 - 34),
              some (4008 - 8 - 1458 * (3 - 1) + 42 - 14)⟩]) :=
  c3_amended 4180 7 4008 3 (by decide) (by decide) (by decide) (by decide)
    (by decide) (by decide) (by decide)

/-- Claim C4 (confirmed).  Whenever the segmenter emits a group for one
descriptor: a descriptor not exceeding MTU_SIZE is emitted unchanged
with its original token; an oversized one yields token zero on every
segment except the last, which alone carries the original token; hence
when the original token is nonzero exactly one emitted segment carries a
non-suppressed completion. -/
theorem c4_token_assignment (d : TxDesc) (l : List Seg)
    (h : segmentOne d = some l) :
    (d.len ≤ MTU_SIZE → l = [⟨d.len, d.completionData, none, none⟩]) ∧
    (MTU_SIZE < d.len →
      l.map Seg.completionData =
        List.replicate (l.length - 1) 0 ++ [d.completionData]) ∧
    (d.completionData ≠ 0 →
      l.countP (fun sg => sg.completionData != 0) = 1) := by
  unfold segmentOne segmentOneAux at h
  split at h
  case isTrue hm =>
    obtain rfl : [(⟨d.len, d.completionData, none, none⟩ : Seg)] = l :=
      Option.some_inj.mp h
    refine ⟨fun _ => rfl, fun hlt => absurd hm (by omega), fun hc => ?_⟩
    simp [List.countP_cons, hc]
  case isFalse hm =>
    split at h
    · exact absurd h (by simp)
    · split at h
      · exact absurd h (by simp)
      · obtain rfl := Option.some_inj.mp h
        refine ⟨fun hle => absurd hle hm, fun _ => ?_, fun hc => ?_⟩
        · simp [List.map_append, List.map_replicate, midSeg, lastSegOf]
        · rw [List.countP_append,
            countP_replicate_false _ _ _ (by simp [midSeg])]
          simp [lastSegOf, List.countP_cons, hc]

/-- Claim C4 witness: a descriptor with total length 5250, token 9, UDP
length field 5008 (payload 5000) segments into 4 pieces; the first three
carry token 0 and only the last carries 9. -/
theorem c4_witness :
    ((5250 : Nat) ≤ MTU_SIZE →
      ([⟨1500, 0, some 1466, some 1486⟩, ⟨1500, 0, some 1466, some 1486⟩,
        ⟨1500, 0, some 1466, some 1486⟩, ⟨668, 9, some 634, some 654⟩] : List Seg) =
        [⟨5250, 9, none, none⟩]) ∧
    (MTU_SIZE < (5250 : Nat) →
      ([⟨1500, 0, some 1466, some 1486⟩, ⟨1500, 0, some 1466, some 1486⟩,
        ⟨1500, 0, some 1466, some 1486⟩, ⟨668, 9, some 634, some 654⟩] : List Seg).map
          Seg.completionData =
        List.replicate
          (([⟨1500, 0, some 1466, some 1486⟩, ⟨1500, 0, some 1466, some 1486⟩,
             ⟨1500, 0, some 1466, some 1486⟩, ⟨668, 9, some 634, some 654⟩] : List Seg).length - 1)
          0 ++ [9]) ∧
    ((9 : Nat) ≠ 0 →
      ([⟨1500, 0, some 1466, some 1486⟩, ⟨1500, 0, some 1466, some 1486⟩,
        ⟨1500, 0, some 1466, some 1486⟩, ⟨668, 9, some 634, some 654⟩] : List Seg).countP
          (fun sg => sg.completionData != 0) = 1) :=
  c4_token_assignment ⟨5250, 9, 5008⟩
    [⟨1500, 0, some 1466, some 1486⟩, ⟨1500, 0, some 1466, some 1486⟩,
     ⟨1500, 0, some 1466, some 1486⟩, ⟨668, 9, some 634, some 654⟩]
    (by decide)

/-- Claim C8, counterexample.  No malformed-oversized validation exists.
First conjunct: a non-UDP oversized descriptor (total length 2000, whose
bytes at the UDP length offset read 1908) is not dropped: the code
emits it, with its original token 7, as a single 1942-byte descriptor
with rewritten UDP and IP length fields, and no failure marker of any
kind is produced.  Second conjunct: an oversized descriptor whose
recovered payload length is 0 (UDP length field 8) drives the byte-move
loop into an underflowing memmove size, undefined behavior (modelled
none) rather than a drop with a failure-marker completion. -/
theorem c8_counterexample :
    segmentOne ⟨2000, 7, 1908⟩ = some [⟨1942, 7, some 1908, some 1928⟩] ∧
    segmentOne ⟨1560, 5, 8⟩ = none := by
  decide

/-- Claim C8 as amended.  Oversized descriptors are never dropped with a
failure-marker completion: the code has no such path.  Every descriptor
with total length above MTU_SIZE is run through the UDP segmentation
arithmetic regardless of protocol; whenever the computed segs is at
least 1 and the recovered payload covers the byte moves, the descriptor
is segmented and emitted (segs segments, at least one); otherwise the
byte moves are undefined behavior.  In no case is a failure completion
generated. -/
theorem c8_amended (d : TxDesc) (hbig : MTU_SIZE < d.len)
    (hpos : 1 ≤ segsOf d)
    (hres : 1458 * (segsOf d - 1) ≤ udpPayloadLen d.udpLenField) :
    ∃ l, segmentOne d = some l ∧ l.length = segsOf d ∧ 1 ≤ l.length := by
  unfold segmentOne segmentOneAux
  unfold segsOf at hpos hres
  rw [if_neg (Nat.not_le.mpr hbig), if_neg (by omega),
    if_neg (Nat.not_lt.mpr hres)]
  refine ⟨_, rfl, ?_, ?_⟩
  · simp only [List.length_append, List.length_replicate, List.length_singleton, segsOf]
    omega
  · simp only [List.length_append, List.length_replicate, List.length_singleton]
    omega

/-- Claim C8 witness: the amended statement at a non-UDP oversized
descriptor of total length 2060 whose bytes at the UDP length offset
read 1908: the code emits 2 segments instead of dropping it. -/
theorem c8_witness :
    MTU_SIZE < (2060 : Nat) ∧
    (∃ l, segmentOne ⟨2060, 3, 1908⟩ = some l ∧
      l.length = segsOf ⟨2060, 3, 1908⟩ ∧ 1 ≤ l.length) :=
  ⟨by decide, c8_amended ⟨2060, 3, 1908⟩ (by decide) (by decide) (by decide)⟩

/-- Invariant of the burst state: between calls the carried buffer list
has length n_pkts (the code keeps n_bufs = n_pkts on these paths). -/
theorem tx_burst_bufs_len (s : TxState) (a : Nat) (h : s.bufs.length = s.nPkts) :
    (tx_burst s a).state.bufs.length = (tx_burst s a).state.nPkts := by
  unfold tx_burst
  by_cases h0 : s.nPkts +
      (pollLoop s.queues.length s.queues s.pos 0 s.nPkts).pulled.length = 0
  · simp [h0, h]
  · simp [h0]

/-- The buffer list offered to the driver is always the carried buffers
followed by the buffers of the descriptors pulled this call. -/
theorem tx_burst_offered_eq (s : TxState) (a : Nat) (h : s.bufs.length = s.nPkts) :
    (tx_burst s a).offered = s.bufs ++ (tx_burst s a).pulled := by
  unfold tx_burst
  by_cases h0 : s.nPkts +
      (pollLoop s.queues.length s.queues s.pos 0 s.nPkts).pulled.length = 0
  · have hb : s.bufs = [] := List.length_eq_zero.mp (by omega)
    simp [h0, hb]
  · simp [h0]

/-- Claim C5, counterexample.  A burst state carrying one unaccepted
buffer (id 2) from a previous short enqueue, with a new descriptor (id
5) waiting in a runtime queue: the next tx_burst call DOES poll the new
descriptor (pulled = [5]) although the carried buffer has not drained,
offering [2, 5] to the driver; the claimed no-new-polling-until-drained
does not hold. -/
theorem c5_counterexample :
    (tx_burst ⟨1, 1, [2], [[5]]⟩ 2).pulled = [5] ∧
    (tx_burst ⟨1, 1, [2], [[5]]⟩ 2).offered = [2, 5] := by
  decide

/-- Claim C5 as amended.  When the driver accepts only k of the n
offered buffers, the remaining n - k are retained in the static array
and are exactly the first entries offered on the next call; but new
descriptors ARE still polled on that next call (up to the remaining
burst budget) and their buffers are queued behind the carried ones. -/
theorem c5_amended (s : TxState) (a b : Nat) (h : s.bufs.length = s.nPkts) :
    (tx_burst s a).state.bufs = (tx_burst s a).offered.drop a ∧
    (tx_burst (tx_burst s a).state b).offered =
      (tx_burst s a).state.bufs ++ (tx_burst (tx_burst s a).state b).pulled := by
  refine ⟨?_, tx_burst_offered_eq _ b (tx_burst_bufs_len s a h)⟩
  unfold tx_burst
  by_cases h0 : s.nPkts +
      (pollLoop s.queues.length s.queues s.pos 0 s.nPkts).pulled.length = 0
  · have hb : s.bufs = [] := List.length_eq_zero.mp (by omega)
    simp [h0, hb]
  · simp [h0]

/-- Claim C5 witness: from an empty carry state with queue [1, 2, 3] and
a driver accepting 1 buffer, the leftover buffers equal the offered list
with its first element dropped, and the next call offers exactly the
carried buffers followed by what it pulls. -/
theorem c5_witness :
    (tx_burst ⟨0, 0, [], [[1, 2, 3]]⟩ 1).state.bufs =
      (tx_burst ⟨0, 0, [], [[1, 2, 3]]⟩ 1).offered.drop 1 ∧
    (tx_burst (tx_burst ⟨0, 0, [], [[1, 2, 3]]⟩ 1).state 0).offered =
      (tx_burst ⟨0, 0, [], [[1, 2, 3]]⟩ 1).state.bufs ++
        (tx_burst (tx_burst ⟨0, 0, [], [[1, 2, 3]]⟩ 1).state 0).pulled :=
  c5_amended ⟨0, 0, [], [[1, 2, 3]]⟩ 1 0 rfl

/-- Claim C6, counterexample.  First call: queue [1, 2], driver accepts
1, leaving one carried buffer and advancing pos to 1.  Second call: the
queues are empty, zero descriptors are pulled, the burst is not filled,
yet pos advances to 2 because the static n_pkts (which counts the
carried buffer) is nonzero at the check on tx.c line 271; so pos is NOT
advanced only-when at least one descriptor was pulled. -/
theorem c6_counterexample :
    (tx_burst ⟨0, 0, [], [[1, 2]]⟩ 1).state.pos = 1 ∧
    (tx_burst (tx_burst ⟨0, 0, [], [[1, 2]]⟩ 1).state 0).pulled = [] ∧
    (tx_burst (tx_burst ⟨0, 0, [], [[1, 2]]⟩ 1).state 0).state.pos = 2 := by
  decide

/-- Claim C6 as amended.  pos advances by exactly one if and only if the
polling loop did not exit through goto full AND the static packet count
(carried buffers plus descriptors pulled this call) is nonzero; with no
carry-over this coincides with the claim, but a call that pulls nothing
while holding carried buffers still advances pos. -/
theorem c6_amended (s : TxState) (accept : Nat) :
    (tx_burst s accept).state.pos = s.pos + 1 ↔
      ((pollLoop s.queues.length s.queues s.pos 0 s.nPkts).filled = false ∧
       s.nPkts +
         (pollLoop s.queues.length s.queues s.pos 0 s.nPkts).pulled.length ≠ 0) := by
  unfold tx_burst
  by_cases h0 : s.nPkts +
      (pollLoop s.queues.length s.queues s.pos 0 s.nPkts).pulled.length = 0
  · simp [h0]
  · cases hf : (pollLoop s.queues.length s.queues s.pos 0 s.nPkts).filled <;>
      simp [h0, hf]

/-- Claim C7, counterexample.  A dequeued slot whose tag is not the
transmit tag makes tx_drain_queue hit BUG_ON (tx.c line 211): the whole
I/O kernel asserts out (modelled as an error aborting everything,
including the following well-formed slot of the same batch); no kill
flag is set and no other runtime continues, contrary to the claimed
per-runtime fatality. -/
theorem c7_counterexample :
    tx_drain_queue ⟨0, 100⟩ 4 [⟨TxCmd.other, 0⟩, ⟨TxCmd.netXmit, 0⟩] =
      Except.error IokPanic.badTag := by
  rfl

/-- Claim C7 as amended.  A slot with a non-transmit tag, or one whose
offset fails shared-memory translation, makes tx_drain_queue terminate
with a global assertion failure (BUG_ON panics the whole I/O kernel);
the code sets no kill flag and isolates nothing, with TODO comments at
tx.c lines 210 and 215 marking per-runtime kill as unimplemented. -/
theorem c7_amended (r : Region) (n : Nat) (s : EgressSlot) (rest : List EgressSlot)
    (h : s.cmd ≠ TxCmd.netXmit ∨ shmptr_to_ptr r s.offset tx_net_hdr_size = none) :
    ∃ e, tx_drain_queue r (n + 1) (s :: rest) = Except.error e := by
  unfold tx_drain_queue
  rcases h with h | h
  · rw [if_pos h]
    exact ⟨_, rfl⟩
  · by_cases hc : s.cmd ≠ TxCmd.netXmit
    · rw [if_pos hc]
      exact ⟨_, rfl⟩
    · rw [if_neg hc, h]
      exact ⟨_, rfl⟩

/-- Claim C7 witness: the amended statement at a concrete bad-tag slot. -/
theorem c7_witness :
    ((⟨TxCmd.other, 5⟩ : EgressSlot).cmd ≠ TxCmd.netXmit ∨
      shmptr_to_ptr ⟨0, 16⟩ 5 tx_net_hdr_size = none) ∧
    (∃ e, tx_drain_queue ⟨0, 16⟩ 4 [⟨TxCmd.other, 5⟩] = Except.error e) :=
  ⟨Or.inl (by decide), c7_amended ⟨0, 16⟩ 3 ⟨TxCmd.other, 5⟩ [] (Or.inl (by decide))⟩

end CaladanTx
